import Mathlib

/-!
Shallow embedding of the remote-playbook core (src/connect.rs and
src/prelude.rs). Rust strings are modelled as lists of characters
(`RStr`), the remote transport and the filesystem as explicit function
parameters, and the `unwrap`-induced process abort in `get_client` as a
dedicated `fatal` outcome distinct from a returned error.
-/

namespace RemotePlaybook

/-- Rust `&str` / `String`, modelled as a list of characters. -/
abbrev RStr := List Char

/-- Rust `str::starts_with` on the character-list model. -/
def startsWithL (s p : RStr) : Bool := p.isPrefixOf s

/-- Rust `str::trim` on the character-list model: drop whitespace from
both ends. -/
def trimL (s : RStr) : RStr :=
  ((s.dropWhile Char.isWhitespace).reverse.dropWhile Char.isWhitespace).reverse

/-- Fuel-driven worker for `replaceL`; the fuel is the length of the
string, which bounds the number of steps since every step consumes at
least one character. -/
def replaceFuel : Nat → RStr → RStr → RStr → RStr
  | 0, s, _, _ => s
  | Nat.succ fuel, s, pat, rep =>
    match s with
    | [] => []
    | c :: rest =>
      if !pat.isEmpty && pat.isPrefixOf (c :: rest) then
        rep ++ replaceFuel fuel ((c :: rest).drop pat.length) pat rep
      else
        c :: replaceFuel fuel rest pat rep

/-- Rust `str::replace` (all non-overlapping occurrences, left to right)
for non-empty patterns; the only pattern used in the source is
`"bash: line 1: "`, which is non-empty. -/
def replaceL (s pat rep : RStr) : RStr := replaceFuel s.length s pat rep

/-- Rust `str::contains` (substring test) on the character-list model. -/
def containsL (s pat : RStr) : Bool :=
  (List.range (s.length + 1)).any fun i => pat.isPrefixOf (s.drop i)

/-- PathExpander: `tilde_with_context` from src/connect.rs lines 6-31.
The injected home-directory resolver is modelled by its optional
result. -/
def tilde_with_context (input : RStr) (home_dir : Option RStr) : RStr :=
  if startsWithL input ("~".toList) then
    let input_after_tilde := input.drop 1
    if input_after_tilde.isEmpty || startsWithL input_after_tilde ("/".toList) then
      match home_dir with
      | some hd => hd ++ input_after_tilde
      | none => input
    else
      input
  else
    input

/-- Modelled from the spec: the SSH field bundle of the configuration
(src/config.rs is not part of the provided sources); field set
`remote_password, remote_key_file, remote_host, remote_port,
remote_user`, all optional, exactly as accessed by src/connect.rs and
listed in the spec's external-interfaces section. The invocation
arguments use the same shape, as in `get_client(args: Ssh, ...)`. -/
structure Ssh where
  remote_password : Option RStr
  remote_key_file : Option RStr
  remote_host : Option RStr
  remote_port : Option Nat
  remote_user : Option RStr
deriving DecidableEq

/-- Modelled from the spec: the configuration object with its optional
SSH section (src/config.rs is not part of the provided sources). -/
structure Config where
  ssh : Option Ssh
deriving DecidableEq

/-- The authentication method of the transport library, as constructed
by src/connect.rs: `with_password` and `with_key(contents, passphrase)`. -/
inductive AuthMethod
  | Password (password : RStr)
  | PrivateKey (key : RStr) (passphrase : Option RStr)
deriving DecidableEq

/-- Opaque live session handle. -/
inductive Client
  | mk
deriving DecidableEq

/-- Result of `get_client`: a returned value, a returned (caller-visible)
error, or a process abort (`fatal`, the Rust `unwrap` panic). -/
inductive GetClientResult (α : Type)
  | ok (value : α)
  | err (msg : RStr)
  | fatal
deriving DecidableEq

/-- The password resolution of `get_client` (src/connect.rs lines 36-42):
configuration password if the SSH section is present and sets one,
argument password (or empty) if the section is present without one, and
the empty string when the SSH section is absent. -/
def effective_password (args : Ssh) (cfg : Config) : RStr :=
  match cfg.ssh with
  | some ssh =>
    match ssh.remote_password with
    | some password => password
    | none => args.remote_password.getD ("".toList)
  | none => "".toList

/-- The key-file path resolution of `get_client` (src/connect.rs lines
47-57): configuration key file first, then the argument key file, else
the `context`-wrapped error. -/
def resolve_key_file (args : Ssh) (cfg : Config) : Except RStr RStr :=
  match cfg.ssh with
  | some ssh =>
    match ssh.remote_key_file with
    | some file => Except.ok file
    | none =>
      match args.remote_key_file with
      | some file => Except.ok file
      | none => Except.error ("no private key file provided".toList)
  | none =>
    match args.remote_key_file with
    | some file => Except.ok file
    | none => Except.error ("no private key file provided".toList)

/-- The host resolution of `get_client` (src/connect.rs lines 65-71). -/
def effective_host (args : Ssh) (cfg : Config) : RStr :=
  match cfg.ssh with
  | some ssh =>
    match ssh.remote_host with
    | some host => host
    | none => args.remote_host.getD ("".toList)
  | none => args.remote_host.getD ("".toList)

/-- The port resolution of `get_client` (src/connect.rs lines 72-78). -/
def effective_port (args : Ssh) (cfg : Config) : Nat :=
  match cfg.ssh with
  | some ssh =>
    match ssh.remote_port with
    | some port => port
    | none => args.remote_port.getD 22
  | none => args.remote_port.getD 22

/-- The username resolution of `get_client` (src/connect.rs lines 79-85). -/
def effective_user (args : Ssh) (cfg : Config) : RStr :=
  match cfg.ssh with
  | some ssh =>
    match ssh.remote_user with
    | some host => host
    | none => args.remote_user.getD ("".toList)
  | none => args.remote_user.getD ("".toList)

/-- SessionConnector: `get_client` from src/connect.rs lines 34-91.
The home-directory lookup, the private-key file read and the transport
handshake are modelled as explicit parameters. The final
`connect(...).await.unwrap()` of the source maps a handshake failure to
`fatal` (process abort), not to `err`. -/
def get_client (args : Ssh) (cfg : Config) (home_dir : Option RStr)
    (read_to_string : RStr → Except RStr RStr)
    (connect : RStr → Nat → RStr → AuthMethod → Except RStr Client) :
    GetClientResult Client :=
  let methodRes : Except RStr AuthMethod :=
    let password := effective_password args cfg
    if password.length > 0 then
      Except.ok (AuthMethod.Password password)
    else
      match resolve_key_file args cfg with
      | Except.error e => Except.error e
      | Except.ok raw_path_key =>
        let path_key := tilde_with_context raw_path_key home_dir
        match read_to_string path_key with
        | Except.error _ => Except.error ("invalid private key ".toList ++ path_key)
        | Except.ok private_key => Except.ok (AuthMethod.PrivateKey private_key none)
  match methodRes with
  | Except.error e => GetClientResult.err e
  | Except.ok method =>
    let host := effective_host args cfg
    let port := effective_port args cfg
    let username := effective_user args cfg
    match connect host port username method with
    | Except.ok client => GetClientResult.ok client
    | Except.error _ => GetClientResult.fatal

/-- The structured command result of the transport library:
`{ exit_status, output }`. -/
structure CommandExecutedResult where
  exit_status : Nat
  output : RStr
deriving DecidableEq

/-- Operating-system classification from src/prelude.rs lines 9-13. -/
inductive Os
  | Ubuntu
  | Debian
  | Unsupported
deriving DecidableEq

/-- CommandRunner `silent` (src/prelude.rs lines 79-83): runs the
command and returns whatever the transport returns, propagating only
transport-level failures. The transport is the `execute` parameter. -/
def silent (execute : RStr → Except RStr CommandExecutedResult) (cmd : RStr) :
    Except RStr CommandExecutedResult :=
  execute cmd

/-- CommandRunner `run` (src/prelude.rs lines 66-75): exit status 0
returns the result, a nonzero exit status fails with the captured
output as the error message. -/
def run (execute : RStr → Except RStr CommandExecutedResult) (cmd : RStr) :
    Except RStr CommandExecutedResult :=
  match execute cmd with
  | Except.error e => Except.error e
  | Except.ok exec_result =>
    if exec_result.exit_status == 0 then
      Except.ok exec_result
    else
      Except.error exec_result.output

/-- RemoteProbes `osinfo` (src/prelude.rs lines 15-28). -/
def osinfo (execute : RStr → Except RStr CommandExecutedResult) : Os :=
  match silent execute ("uname -a".toList) with
  | Except.ok out =>
    if containsL out.output ("Ubuntu".toList) then
      Os.Ubuntu
    else if containsL out.output ("Debian".toList) then
      Os.Debian
    else
      Os.Unsupported
  | Except.error _ => Os.Unsupported

/-- RemoteProbes `which` (src/prelude.rs lines 30-41). -/
def which (execute : RStr → Except RStr CommandExecutedResult) (cmd : RStr) :
    Except RStr RStr :=
  match silent execute cmd with
  | Except.ok out =>
    if out.exit_status == 0 then
      Except.ok (trimL out.output)
    else
      Except.error (replaceL (trimL out.output) ("bash: line 1: ".toList) ("".toList))
  | Except.error _ => Except.error ("not installed".toList)

/-- RemoteProbes `some_output` (src/prelude.rs lines 43-54). -/
def some_output (execute : RStr → Except RStr CommandExecutedResult) (cmd : RStr) :
    Bool :=
  match silent execute cmd with
  | Except.ok out =>
    if out.exit_status == 0 then
      !(trimL out.output).isEmpty
    else
      false
  | Except.error _ => false

/-- RemoteProbes `file_exists` (src/prelude.rs lines 56-62): builds the
command by `format!("ls -1 {}", filename)` and tests exit status 0. -/
def file_exists (execute : RStr → Except RStr CommandExecutedResult)
    (filename : RStr) : Bool :=
  let cmd := "ls -1 ".toList ++ filename
  match silent execute cmd with
  | Except.ok out => out.exit_status == 0
  | Except.error _ => false

/-- StatusAggregator variants (src/prelude.rs lines 86-97). -/
inductive Status
  | Installed (success : List String)
  | NotInstalled (success : List String) (fail : List String)
deriving DecidableEq

/-- StatusAggregator constructor `Status::new` (src/prelude.rs lines
122-132). -/
def Status.new (success : List String) (failure : List String) : Status :=
  if failure.isEmpty then
    Status.Installed success
  else
    Status.NotInstalled success failure

/-- Follows the spec's words, not the source: one field resolved by the
priority rule "configuration value if its SSH section is present and
sets the field, otherwise the argument value if set, otherwise the
default"; the configuration side is passed already flattened through
the optional SSH section. Used to compare the source's per-field merge
against the spec's description. -/
def spec_resolve {α : Type} (cfgField argField : Option α) (dflt : α) : α :=
  match cfgField with
  | some v => v
  | none =>
    match argField with
    | some v => v
    | none => dflt

end RemotePlaybook

namespace RemotePlaybook

/-- C1: the claim states that when the configuration omits a password —
including when the SSH section is entirely absent — a non-empty argument
password selects password authentication. Evaluating the source's logic
at arguments carrying password "argpw" and a configuration with no SSH
section shows the argument password is ignored: the effective password
is empty and `get_client` falls through to the key-file branch, failing
with "no private key file provided" even though the supplied `connect`
would have accepted any authentication method. -/
theorem c1_password_merge_eval :
    effective_password (Ssh.mk (some ("argpw".toList)) none none none none)
        (Config.mk none) = "".toList ∧
    get_client (Ssh.mk (some ("argpw".toList)) none none none none) (Config.mk none)
        none (fun _ => Except.error []) (fun _ _ _ _ => Except.ok Client.mk)
      = GetClientResult.err ("no private key file provided".toList) :=
  ⟨rfl, by decide⟩

/-- C2: the claim states that a failed handshake surfaces as a
caller-visible error and never terminates the process. Evaluating the
source's logic at a configuration with password authentication and a
transport whose handshake fails shows the result is the process abort
(`fatal`, the `unwrap` panic), which is distinct from every returned
error value. -/
theorem c2_handshake_abort_eval :
    get_client (Ssh.mk none none none none none)
        (Config.mk (some (Ssh.mk (some ("pw".toList)) none none none none))) none
        (fun _ => Except.error []) (fun _ _ _ _ => Except.error ("unreachable".toList))
      = GetClientResult.fatal ∧
    ∀ msg : RStr, (GetClientResult.fatal : GetClientResult Client) ≠ GetClientResult.err msg := by
  refine ⟨by decide, ?_⟩
  intro msg h
  exact GetClientResult.noConfusion h

/-- C3: `tilde_with_context` is the identity on inputs not starting with
a tilde; on `~` or `~/rest` it prepends the resolved home directory to
everything after the tilde when the resolver yields one, and is the
identity when the resolver yields nothing; on `~` followed by any other
character it is the identity. -/
theorem c3_tilde_spec (input : RStr) (home : Option RStr) :
    (startsWithL input ['~'] = false → tilde_with_context input home = input) ∧
    (∀ H, home = some H → (input = ['~'] ∨ startsWithL input ['~', '/'] = true) →
      tilde_with_context input home = H ++ input.drop 1) ∧
    (home = none → (input = ['~'] ∨ startsWithL input ['~', '/'] = true) →
      tilde_with_context input home = input) ∧
    (∀ c rest, input = '~' :: c :: rest → c ≠ '/' →
      tilde_with_context input home = input) := by
  refine ⟨?_, ?_, ?_, ?_⟩
  · intro h
    simp [tilde_with_context, h]
  · intro H hH hcase
    subst hH
    rcases hcase with h | h
    · subst h
      simp [tilde_with_context, startsWithL, List.isPrefixOf]
    · obtain ⟨t, ht⟩ := List.isPrefixOf_iff_prefix.mp h
      subst ht
      simp [tilde_with_context, startsWithL, List.isPrefixOf]
  · intro hH hcase
    subst hH
    rcases hcase with h | h
    · subst h
      simp [tilde_with_context, startsWithL, List.isPrefixOf]
    · obtain ⟨t, ht⟩ := List.isPrefixOf_iff_prefix.mp h
      subst ht
      simp [tilde_with_context, startsWithL, List.isPrefixOf]
  · intro c rest h hc
    subst h
    simp [tilde_with_context, startsWithL, List.isPrefixOf, Ne.symm hc]

/-- Witness for C3 at a concrete input: expanding `~/x` with home
directory `/home/u`. -/
theorem c3_tilde_spec_witness :
    tilde_with_context ("~/x".toList) (some ("/home/u".toList))
      = "/home/u".toList ++ ("~/x".toList).drop 1 :=
  (c3_tilde_spec ("~/x".toList) (some ("/home/u".toList))).2.1 ("/home/u".toList) rfl
    (Or.inr (by decide))

/-- C4: `Status.new` yields `Installed` exactly when the failure list is
empty and `NotInstalled` otherwise, with the three concrete cases of the
claim. -/
theorem c4_status_new_spec (success failure : List String) :
    (failure = [] → Status.new success failure = Status.Installed success) ∧
    (failure ≠ [] → Status.new success failure = Status.NotInstalled success failure) ∧
    Status.new [] [] = Status.Installed [] ∧
    Status.new ["x"] [] = Status.Installed ["x"] ∧
    Status.new ["x"] ["y"] = Status.NotInstalled ["x"] ["y"] := by
  refine ⟨?_, ?_, rfl, rfl, rfl⟩
  · intro h
    subst h
    rfl
  · intro h
    cases failure with
    | nil => exact absurd rfl h
    | cons a as => rfl

/-- Witness for C4 at a concrete input. -/
theorem c4_status_new_spec_witness :
    Status.new ["a"] [] = Status.Installed ["a"] :=
  (c4_status_new_spec ["a"] []).1 rfl

/-- C5: `run` returns the command result when the exit status is 0 and
fails with the captured output text as the error message when the exit
status is nonzero. -/
theorem c5_run_spec (execute : RStr → Except RStr CommandExecutedResult) (cmd : RStr)
    (r : CommandExecutedResult) (h : execute cmd = Except.ok r) :
    (r.exit_status = 0 → run execute cmd = Except.ok r) ∧
    (r.exit_status ≠ 0 → run execute cmd = Except.error r.output) := by
  constructor
  · intro h0
    simp [run, h, h0]
  · intro h0
    simp [run, h, h0]

/-- Witness for C5 at a concrete input. -/
theorem c5_run_spec_witness :
    run (fun _ => Except.ok (CommandExecutedResult.mk 0 ("ok".toList))) ("uptime".toList)
      = Except.ok (CommandExecutedResult.mk 0 ("ok".toList)) :=
  (c5_run_spec (fun _ => Except.ok (CommandExecutedResult.mk 0 ("ok".toList)))
    ("uptime".toList) (CommandExecutedResult.mk 0 ("ok".toList)) rfl).1 rfl

/-- C6: `which` returns the trimmed output on exit status 0; on a
nonzero exit status it fails with the trimmed output with every
occurrence of the shell artifact "bash: line 1: " removed; on a
transport error it fails with "not installed". -/
theorem c6_which_spec (execute : RStr → Except RStr CommandExecutedResult) (cmd : RStr) :
    (∀ r, execute cmd = Except.ok r → r.exit_status = 0 →
      which execute cmd = Except.ok (trimL r.output)) ∧
    (∀ r, execute cmd = Except.ok r → r.exit_status ≠ 0 →
      which execute cmd
        = Except.error (replaceL (trimL r.output) ("bash: line 1: ".toList) ("".toList))) ∧
    (∀ e, execute cmd = Except.error e →
      which execute cmd = Except.error ("not installed".toList)) := by
  refine ⟨?_, ?_, ?_⟩
  · intro r h h0
    simp [which, silent, h, h0]
  · intro r h h0
    simp [which, silent, h, h0]
  · intro e h
    simp [which, silent, h]

/-- Witness for C6: the claim's exit-127 example, with the shell prefix
stripped from the message. -/
theorem c6_which_spec_witness :
    which (fun _ => Except.ok
        (CommandExecutedResult.mk 127 ("bash: line 1: foo: command not found".toList)))
        ("which foo".toList)
      = Except.error ("foo: command not found".toList) := by
  have h := (c6_which_spec (fun _ => Except.ok
      (CommandExecutedResult.mk 127 ("bash: line 1: foo: command not found".toList)))
      ("which foo".toList)).2.1
    (CommandExecutedResult.mk 127 ("bash: line 1: foo: command not found".toList)) rfl
    (by decide)
  exact h.trans rfl

/-- C7: when no non-empty password is resolved and neither source
provides a key-file path, `get_client` fails with the explicit
"no private key file provided" error; when both sources provide one,
the key-file resolution used by `get_client` picks the configuration's
path. -/
theorem c7_no_key_spec (args : Ssh) (cfg : Config) (home : Option RStr)
    (read_to_string : RStr → Except RStr RStr)
    (connect : RStr → Nat → RStr → AuthMethod → Except RStr Client) :
    (effective_password args cfg = [] → args.remote_key_file = none →
      (cfg.ssh = none ∨ ∃ ssh, cfg.ssh = some ssh ∧ ssh.remote_key_file = none) →
      get_client args cfg home read_to_string connect
        = GetClientResult.err ("no private key file provided".toList)) ∧
    (∀ ssh f g, cfg.ssh = some ssh → ssh.remote_key_file = some f →
      args.remote_key_file = some g → resolve_key_file args cfg = Except.ok f) := by
  constructor
  · intro hpw hak hcfg
    have hres : resolve_key_file args cfg
        = Except.error ("no private key file provided".toList) := by
      rcases hcfg with h | ⟨ssh, h1, h2⟩
      · simp [resolve_key_file, h, hak]
      · simp [resolve_key_file, h1, h2, hak]
    simp [get_client, hpw, hres]
  · intro ssh f g h1 h2 _
    simp [resolve_key_file, h1, h2]

/-- Witness for C7 at a concrete input: nothing provided anywhere. -/
theorem c7_no_key_spec_witness :
    get_client (Ssh.mk none none none none none) (Config.mk none) none
        (fun _ => Except.error []) (fun _ _ _ _ => Except.ok Client.mk)
      = GetClientResult.err ("no private key file provided".toList) :=
  (c7_no_key_spec (Ssh.mk none none none none none) (Config.mk none) none
      (fun _ => Except.error []) (fun _ _ _ _ => Except.ok Client.mk)).1 rfl rfl (Or.inl rfl)

/-- C8: host, port and username are each resolved independently by the
rule "configuration value if the SSH section is present and sets the
field, otherwise the argument value if set, otherwise the default"
(empty string, empty string, and 22), stated against the spec-side
`spec_resolve`; plus the claim's concrete merge example. -/
theorem c8_target_merge_spec (args : Ssh) (cfg : Config) :
    effective_host args cfg
      = spec_resolve (cfg.ssh.bind fun s => s.remote_host) args.remote_host ("".toList) ∧
    effective_port args cfg
      = spec_resolve (cfg.ssh.bind fun s => s.remote_port) args.remote_port 22 ∧
    effective_user args cfg
      = spec_resolve (cfg.ssh.bind fun s => s.remote_user) args.remote_user ("".toList) ∧
    effective_host (Ssh.mk none none (some ("b".toList)) (some 2222) none)
      (Config.mk (some (Ssh.mk none none (some ("a".toList)) none none))) = "a".toList ∧
    effective_port (Ssh.mk none none (some ("b".toList)) (some 2222) none)
      (Config.mk (some (Ssh.mk none none (some ("a".toList)) none none))) = 2222 := by
  rcases args with ⟨ap, ak, ah, apo, au⟩
  refine ⟨?_, ?_, ?_, rfl, rfl⟩
  · rcases cfg with ⟨_ | ⟨p, k, h, po, u⟩⟩
    · cases ah <;> rfl
    · cases h
      · cases ah <;> rfl
      · rfl
  · rcases cfg with ⟨_ | ⟨p, k, h, po, u⟩⟩
    · cases apo <;> rfl
    · cases po
      · cases apo <;> rfl
      · rfl
  · rcases cfg with ⟨_ | ⟨p, k, h, po, u⟩⟩
    · cases au <;> rfl
    · cases u
      · cases au <;> rfl
      · rfl

/-- C9: `some_output` and `file_exists` return false on any transport
error and `osinfo` returns `Unsupported`; on a delivered result,
`some_output` is true exactly when the exit status is 0 and the trimmed
output is non-empty, and `file_exists` is true exactly when the exit
status is 0. All three are total functions into `Bool`/`Os`, so none
can raise. -/
theorem c9_probes_soft_spec (execute : RStr → Except RStr CommandExecutedResult)
    (cmd filename : RStr) :
    (∀ e, execute cmd = Except.error e → some_output execute cmd = false) ∧
    (∀ e, execute ("ls -1 ".toList ++ filename) = Except.error e →
      file_exists execute filename = false) ∧
    (∀ e, execute ("uname -a".toList) = Except.error e → osinfo execute = Os.Unsupported) ∧
    (∀ r, execute cmd = Except.ok r →
      (some_output execute cmd = true ↔ (r.exit_status = 0 ∧ trimL r.output ≠ []))) ∧
    (∀ r, execute ("ls -1 ".toList ++ filename) = Except.ok r →
      (file_exists execute filename = true ↔ r.exit_status = 0)) := by
  refine ⟨?_, ?_, ?_, ?_, ?_⟩
  · intro e h
    simp [some_output, silent, h]
  · intro e h
    have h2 : execute ('l' :: 's' :: ' ' :: '-' :: '1' :: ' ' :: filename)
        = Except.error e := h
    simp [file_exists, silent, h2]
  · intro e h
    have h2 : execute ['u', 'n', 'a', 'm', 'e', ' ', '-', 'a'] = Except.error e := h
    simp [osinfo, silent, h2]
  · intro r h
    by_cases h0 : r.exit_status = 0 <;>
      simp [some_output, silent, h, h0, List.isEmpty_iff]
  · intro r h
    have h2 : execute ('l' :: 's' :: ' ' :: '-' :: '1' :: ' ' :: filename)
        = Except.ok r := h
    simp [file_exists, silent, h2]

/-- Witness for C9 at a concrete input: a failing transport. -/
theorem c9_probes_soft_spec_witness :
    some_output (fun _ => Except.error []) ("uname -a".toList) = false :=
  (c9_probes_soft_spec (fun _ => Except.error []) ("uname -a".toList) ("x".toList)).1 [] rfl

/-- C10: `file_exists` consults the transport at exactly the command
"ls -1 " concatenated with the filename verbatim — no quoting or
escaping is applied — and its result is determined by that single call;
the second conjunct instantiates this at a filename containing shell
metacharacters. -/
theorem c10_file_exists_cmd_spec (execute : RStr → Except RStr CommandExecutedResult)
    (filename : RStr) :
    (file_exists execute filename
      = (match execute ("ls -1 ".toList ++ filename) with
         | Except.ok out => out.exit_status == 0
         | Except.error _ => false)) ∧
    (file_exists execute ("a; reboot".toList)
      = (match execute ("ls -1 a; reboot".toList) with
         | Except.ok out => out.exit_status == 0
         | Except.error _ => false)) :=
  ⟨rfl, rfl⟩

end RemotePlaybook
